import Mathlib

/-!
Verification of the ZBRAIN hospital patient-flow simulator
(`src/zbrain_simulator.py`) against its natural-language specification.

The Python source is shallowly embedded: money and time values (Python
floats whose arithmetic here only involves exactly representable
operations of interest) are modelled as rationals `ℚ`, Python strings as
`String`, Python `None`-able fields as `Option`, and the stateful event
handlers as pure functions from the pre-state to the post-state plus the
list of newly enqueued events.  Definition names follow the source.
-/

namespace ZBrain

/-- Patient acuity levels, from `Config.PATIENT_ACUITY` keys. -/
inductive Acuity where
  | CRITICAL
  | URGENT_ADMIT
  | URGENT_OBS
  | NON_URGENT
deriving DecidableEq, Repr

/-- Staff types appearing in `Config.STAFF_PER_UNIT`, plus the two
transport pools created in `HospitalSimulator._initialize_staff`. -/
inductive StaffType where
  | PHYSICIAN
  | NURSE
  | TECH
  | RADIOLOGIST
  | TRANSPORT
  | VOLUNTEER_TRANSPORT
deriving DecidableEq, Repr

/-- Per-minute staff cost.  Mirrors the `getattr(Config, f'TYPE_COST')`
lookup in `Staff.accrue_cost_for_completed_task` together with the
special case for volunteers (`Config.VOLUNTEER_COST = 0.0`):
`PHYSICIAN_COST = 3.0`, `NURSE_COST = 1.0`, `TECH_COST = 0.50`,
`RADIOLOGIST_COST = 2.5`, `TRANSPORT_COST = 0.60`. -/
def costPerMinute : StaffType → ℚ
  | .PHYSICIAN => 3
  | .NURSE => 1
  | .TECH => 1/2
  | .RADIOLOGIST => 5/2
  | .TRANSPORT => 3/5
  | .VOLUNTEER_TRANSPORT => 0

/-- `Config.OVERTIME_MULTIPLIER = 1.5`. -/
def OVERTIME_MULTIPLIER : ℚ := 3/2

/-- The `overtime_fraction = 0.2` local constant of the two accrual
methods of `Staff`. -/
def overtime_fraction : ℚ := 1/5

/-- The `Staff` class: id, type, `busy_until`, the optional start time of
the current assignment, its description, the unit it was issued from, and
the two cost accumulators. -/
structure Staff where
  id : String
  type : StaffType
  busy_until : ℚ := 0
  last_assignment_start_time : Option ℚ := none
  current_assignment_details : Option String := none
  last_assigned_unit : Option String := none
  total_normal_cost : ℚ := 0
  total_overtime_cost : ℚ := 0
deriving DecidableEq, Repr

/-- `Staff.is_free(sim_time)`: `sim_time >= busy_until`. -/
def Staff.is_free (s : Staff) (sim_time : ℚ) : Bool :=
  s.busy_until ≤ sim_time

/-- `Staff.accrue_cost_for_completed_task(current_sim_time)`: if an
assignment was started and is finished by `current_sim_time`, add its
cost — split 80% at the normal rate and 20% at the overtime-multiplied
rate — to the accumulators and clear the assignment fields. -/
def Staff.accrue_cost_for_completed_task (s : Staff) (current_sim_time : ℚ) :
    Staff :=
  match s.last_assignment_start_time with
  | none => s
  | some start =>
    if s.busy_until ≤ current_sim_time then
      let duration_worked := s.busy_until - start
      let s' :=
        if 0 < duration_worked then
          let cost_per_minute := costPerMinute s.type
          let assignment_cost := cost_per_minute * duration_worked
          { s with
            total_overtime_cost := s.total_overtime_cost +
              assignment_cost * overtime_fraction * OVERTIME_MULTIPLIER
            total_normal_cost := s.total_normal_cost +
              assignment_cost * (1 - overtime_fraction) }
        else s
      { s' with
        last_assignment_start_time := none
        current_assignment_details := none
        last_assigned_unit := none }
    else s

/-- `Staff.assign(sim_time, duration, assignment_details, unit_name)`:
first accrues the previous completed task, then records the new one. -/
def Staff.assign (s : Staff) (sim_time duration : ℚ)
    (assignment_details : String) (unit_name : Option String) : Staff :=
  let s := s.accrue_cost_for_completed_task sim_time
  { s with
    busy_until := sim_time + duration
    last_assignment_start_time := some sim_time
    current_assignment_details := some assignment_details
    last_assigned_unit := unit_name }

/-- `Staff.accrue_remaining_cost(final_sim_time)`: at simulation end, any
still-open assignment is accrued with duration
`min(final_sim_time, busy_until) - last_assignment_start_time`. -/
def Staff.accrue_remaining_cost (s : Staff) (final_sim_time : ℚ) : Staff :=
  match s.last_assignment_start_time with
  | none => s
  | some start =>
    let duration_worked := min final_sim_time s.busy_until - start
    let s' :=
      if 0 < duration_worked then
        let cost_per_minute := costPerMinute s.type
        let assignment_cost := cost_per_minute * duration_worked
        { s with
          total_overtime_cost := s.total_overtime_cost +
            assignment_cost * overtime_fraction * OVERTIME_MULTIPLIER
          total_normal_cost := s.total_normal_cost +
            assignment_cost * (1 - overtime_fraction) }
      else s
    { s' with last_assignment_start_time := none }

/-- The milestone and routing fields of the `Patient` class that the
modelled handlers read or write. -/
structure Patient where
  id : String
  arrival_time : ℚ
  acuity : Acuity
  current_unit : String := "ED"
  status : String := "ARRIVED"
  events : List (ℚ × String × Option String) := []
  needs_imaging : Bool := false
  needs_lab : Bool := false
  boarding_start_time : Option ℚ := none
  ed_disposition_time : Option ℚ := none
  discharge_requested : Bool := false
  assigned_staff_id : Option String := none
  transport_request_time : Option ℚ := none
  transport_assigned_time : Option ℚ := none
  transport_type : Option String := none
deriving DecidableEq, Repr

/-- `Patient.add_event(time, type, unit_id)`: append to the event log. -/
def Patient.add_event (p : Patient) (time : ℚ) (ty : String)
    (unit_id : Option String) : Patient :=
  { p with events := p.events ++ [(time, ty, unit_id)] }

/-- The `Unit` class: name, capacity, the dict of occupant patient ids
(modelled as a `Finset` of ids) and the heap of queued patient ids
(modelled as a list; its heap ordering is irrelevant to the claims). -/
structure HospUnit where
  name : String
  capacity : ℕ
  patients_in_unit : Finset String := ∅
  queue : List String := []

/-- `Unit.admit_patient(patient, sim_time)`: succeeds exactly when the
occupant count is strictly below capacity; on success inserts the patient
id, removes it from the queue, points the patient at this unit and logs
an `ADMITTED_TO_*` event.  Returns the updated unit and patient along
with the boolean result. -/
def HospUnit.admit_patient (u : HospUnit) (p : Patient) (sim_time : ℚ) :
    HospUnit × Patient × Bool :=
  if u.patients_in_unit.card < u.capacity then
    ({ u with
        patients_in_unit := insert p.id u.patients_in_unit
        queue := u.queue.erase p.id },
     Patient.add_event { p with current_unit := u.name } sim_time
       ("ADMITTED_TO_" ++ u.name) (some u.name),
     true)
  else (u, p, false)

/-- `Unit.discharge_patient(patient, sim_time)`: removes the patient id
when present and logs a `DISCHARGED_FROM_*` event. -/
def HospUnit.discharge_patient (u : HospUnit) (p : Patient) (sim_time : ℚ) :
    HospUnit × Patient × Bool :=
  if p.id ∈ u.patients_in_unit then
    ({ u with patients_in_unit := u.patients_in_unit.erase p.id },
     p.add_event sim_time ("DISCHARGED_FROM_" ++ u.name) (some u.name),
     true)
  else (u, p, false)

/-- The only operations of the simulator that touch a unit's occupant
set: `admit_patient` and `discharge_patient` (all handlers go through
these two methods). -/
inductive UnitOp where
  | admission (p : Patient) (sim_time : ℚ)
  | discharge (p : Patient) (sim_time : ℚ)

/-- Apply one occupant-set operation to a unit. -/
def HospUnit.applyOp (u : HospUnit) : UnitOp → HospUnit
  | .admission p t => (u.admit_patient p t).1
  | .discharge p t => (u.discharge_patient p t).1

/-- Apply a sequence of occupant-set operations to a unit. -/
def HospUnit.applyOps (u : HospUnit) : List UnitOp → HospUnit
  | [] => u
  | op :: rest => (u.applyOp op).applyOps rest

/-- `HospitalSimulator._get_patient_satisfaction_score(ed_los)`,
translated from the source: base score 100 below 30 minutes, 1 above 480
minutes, linear in between; bonuses `SATISFACTION_AMENITIES_BONUS = 10`
and `SATISFACTION_ENTERTAINMENT_BONUS = 15` when the corresponding
feature is enabled; final `max(1, min(100, score))`. -/
def get_patient_satisfaction_score (enable_amenities enable_ai_entertainment : Bool)
    (ed_los : ℚ) : ℚ :=
  let max_los_for_score : ℚ := 480
  let min_los_for_score : ℚ := 30
  let base_score : ℚ :=
    if ed_los ≤ min_los_for_score then 100
    else if max_los_for_score ≤ ed_los then 1
    else 100 - ((ed_los - min_los_for_score) /
      (max_los_for_score - min_los_for_score)) * 99
  let base_score := if enable_amenities then base_score + 10 else base_score
  let base_score := if enable_ai_entertainment then base_score + 15 else base_score
  max 1 (min 100 base_score)

/-- The satisfaction score exactly as the specification words it: a
piecewise base (100 at or below 30 minutes, 1 at or above 480 minutes,
`100 - ((L - 30) / 450) * 99` in between), plus 10 for amenities and 15
for entertainment, clamped into the interval `[1, 100]`. -/
def satisfactionSpec (enable_amenities enable_ai_entertainment : Bool)
    (L : ℚ) : ℚ :=
  let base : ℚ :=
    if L ≤ 30 then 100
    else if 480 ≤ L then 1
    else 100 - ((L - 30) / 450) * 99
  let bonus : ℚ :=
    (if enable_amenities then 10 else 0) +
    (if enable_ai_entertainment then 15 else 0)
  min 100 (max 1 (base + bonus))

/-- Sum of `c_{i-1} * (t_i - t_{i-1})` over consecutive points, the loop
of `MetricsTracker.calculate_weighted_average_occupancy`. -/
def occupancyPairSum : List (ℚ × ℚ) → ℚ
  | [] => 0
  | [_] => 0
  | a :: b :: rest => a.2 * (b.1 - a.1) + occupancyPairSum (b :: rest)

/-- `MetricsTracker.calculate_weighted_average_occupancy(list, span)`:
with more than one point, the pairwise weighted sum plus the last count
times `SIM_END_TIME` minus the last time, divided by the span when it is
positive; with exactly one point, that point's count; otherwise 0. -/
def calculate_weighted_average_occupancy (occupancy_times_list : List (ℚ × ℚ))
    (sim_end_time total_sim_time_span : ℚ) : ℚ :=
  if 1 < occupancy_times_list.length then
    let last := occupancy_times_list.getLastD (0, 0)
    let weighted_patient_minutes :=
      occupancyPairSum occupancy_times_list + last.2 * (sim_end_time - last.1)
    if 0 < total_sim_time_span then
      weighted_patient_minutes / total_sim_time_span
    else 0
  else
    match occupancy_times_list with
    | p :: _ => p.2
    | [] => 0

/-- The time-weighted average as the specification words it, indexing the
series as `(t_i, c_i)`:
`(1/H) * (Σ_{i=1}^{n-1} c_{i-1} (t_i - t_{i-1}) + c_{n-1} (H - t_{n-1}))`
for two or more points, the single count for one point, 0 when empty. -/
def weightedAverageSpec (pts : List (ℚ × ℚ)) (H : ℚ) : ℚ :=
  match pts with
  | [] => 0
  | [p] => p.2
  | a :: b :: rest =>
    (1 / H) *
      ((Finset.range ((a :: b :: rest).length - 1)).sum (fun i =>
        ((a :: b :: rest).getD i (0, 0)).2 *
          (((a :: b :: rest).getD (i + 1) (0, 0)).1 -
            ((a :: b :: rest).getD i (0, 0)).1)) +
       ((a :: b :: rest).getLastD (0, 0)).2 *
         (H - ((a :: b :: rest).getLastD (0, 0)).1))

/-- The utilization percentage computed in `MetricsTracker.report`:
`(avg / capacity) * 100` when the capacity is positive, else 0. -/
def utilizationPercent (avg capacity : ℚ) : ℚ :=
  if 0 < capacity then avg / capacity * 100 else 0

/-- An entry of the scheduler's event queue.  The source pushes tuples
`(fire_time, event_kind, patient_id, payload)`; Python tuple comparison
inspects `fire_time` first and `event_kind` second, and reaches the
later components only when both of these are equal — a case none of the
theorems below depends on, so the model carries the two compared
fields. -/
structure QEntry where
  fire_time : ℚ
  event_kind : String
deriving DecidableEq, Repr

/-- Python string comparison: lexicographic on the code points, i.e. on
the underlying character lists. -/
def pyStrLt (a b : String) : Bool :=
  decide (a.data < b.data)

/-- Python tuple comparison on `(fire_time, event_kind, ...)` prefixes:
strictly earlier time, or equal time and lexicographically smaller event
kind string. -/
def QEntry.lt (a b : QEntry) : Bool :=
  if a.fire_time < b.fire_time then true
  else if a.fire_time = b.fire_time then pyStrLt a.event_kind b.event_kind
  else false

/-- The default entry used for out-of-range index reads; all index
arithmetic below stays in range, mirroring CPython's `heapq`. -/
def qdefault : QEntry := ⟨0, ""⟩

/-- CPython `heapq._siftdown(heap, startpos, pos)` with `newitem =
heap[pos]` passed explicitly: walk up from `pos`, moving each parent
larger than `newitem` down, and finally store `newitem`.  The `fuel`
argument only bounds the loop: the position strictly decreases on every
iteration, so with `fuel = pos + 1` the zero-fuel branch is never
reached. -/
def siftdownAux (heap : List QEntry) (startpos : ℕ) (newitem : QEntry) :
    ℕ → ℕ → List QEntry
  | 0, pos => heap.set pos newitem
  | fuel + 1, pos =>
    if startpos < pos then
      let parentpos := (pos - 1) / 2
      let parent := heap.getD parentpos qdefault
      if QEntry.lt newitem parent then
        siftdownAux (heap.set pos parent) startpos newitem fuel parentpos
      else heap.set pos newitem
    else heap.set pos newitem

/-- `heapq._siftdown` itself. -/
def siftdown (heap : List QEntry) (startpos pos : ℕ) : List QEntry :=
  siftdownAux heap startpos (heap.getD pos qdefault) (pos + 1) pos

/-- CPython `heapq._siftup`'s loop: follow the smaller child downward,
moving children up, returning the final heap and position.  The `fuel`
argument only bounds the loop: the position strictly increases toward
`endpos` on every iteration, so with `fuel = endpos` the zero-fuel
branch is never reached. -/
def siftupLoop (endpos : ℕ) : ℕ → List QEntry → ℕ → List QEntry × ℕ
  | 0, heap, pos => (heap, pos)
  | fuel + 1, heap, pos =>
    let childpos := 2 * pos + 1
    if childpos < endpos then
      let rightpos := childpos + 1
      let childpos :=
        if rightpos < endpos ∧
           ¬ QEntry.lt (heap.getD childpos qdefault) (heap.getD rightpos qdefault)
        then rightpos else childpos
      siftupLoop endpos fuel (heap.set pos (heap.getD childpos qdefault)) childpos
    else (heap, pos)

/-- CPython `heapq._siftup(heap, pos)`: bubble the hole at `pos` down to
a leaf, place the displaced item there and sift it back down toward
`pos`. -/
def siftup (heap : List QEntry) (pos : ℕ) : List QEntry :=
  let endpos := heap.length
  let startpos := pos
  let newitem := heap.getD pos qdefault
  let hp := siftupLoop endpos endpos heap pos
  siftdownAux (hp.1.set hp.2 newitem) startpos newitem (hp.2 + 1) hp.2

/-- CPython `heapq.heappush`: append, then sift the new last element up
toward the root. -/
def heappush (heap : List QEntry) (item : QEntry) : List QEntry :=
  siftdownAux (heap ++ [item]) 0 item (heap.length + 1) heap.length

/-- CPython `heapq.heappop`: remove the last element; if the heap is then
non-empty, return the root, move the last element into its place and sift
it down. -/
def heappop (heap : List QEntry) : Option (QEntry × List QEntry) :=
  match heap.getLast? with
  | none => none
  | some lastelt =>
    let rest := heap.dropLast
    if rest.isEmpty then some (lastelt, rest)
    else
      let returnitem := rest.getD 0 qdefault
      some (returnitem, siftup (rest.set 0 lastelt) 0)

/-- Python `%` for the arguments the simulator uses (a time and the
positive constant `SIM_MINUTES_PER_DAY`): `a - n * floor(a / n)`. -/
def pymod (a n : ℚ) : ℚ :=
  a - n * (Rat.floor (a / n) : ℚ)

/-- The configuration constants read by the transport broker and the
admission/transport-complete handlers, with the `Config` class defaults.
`VOLUNTEER_HOURS_START = 8 * 60`, `VOLUNTEER_HOURS_END = 17 * 60`. -/
structure BrokerConfig where
  SIM_MINUTES_PER_DAY : ℚ := 1440
  TICK_INTERVAL_MINUTES : ℚ := 5
  INPATIENT_CDU_CHECK_INTERVAL : ℚ := 30
  VOLUNTEER_HOURS_START : ℚ := 480
  VOLUNTEER_HOURS_END : ℚ := 1020
  VOLUNTEER_ACUITY_ELIGIBILITY : List Acuity := [.URGENT_OBS, .NON_URGENT]
  PULLEY_ELIGIBLE_UNITS : List String := ["ED"]
  PULLEY_ELIGIBLE_DESTINATIONS : List String := ["IMAGING_CT", "IMAGING_MRI"]
  PULLEY_SYSTEM_CAPACITY : ℤ := 0
  CDU_CRITERIA_MATCH : ℚ := 4/5

/-- The pending `random.randint` draws of one call to
`_request_transport_resource`: the branch taken consumes the matching
duration (`PULLEY_TRANSFER_PROCESS_TIME`, `TRANSFER_PROCESS_TIME` or
`VOLUNTEER_TRANSFER_PROCESS_TIME` respectively). -/
structure TransportDraws where
  pulley_duration : ℚ := 0
  paid_duration : ℚ := 0
  volunteer_duration : ℚ := 0
deriving DecidableEq, Repr

/-- An event tuple pushed on the scheduler queue:
`(fire_time, event_type, patient_id, {'duration': d}?)`. -/
structure QueuedEvent where
  fire_time : ℚ
  event_type : String
  patient_id : Option String
  payload_duration : Option ℚ
deriving DecidableEq, Repr

/-- Python `min(available, key=lambda s: s.busy_until)` keeps the first
element whose key is strictly smaller than the best so far, scanning left
to right from the head. -/
def minByBusy (best : Staff) : List Staff → Staff
  | [] => best
  | s :: rest => minByBusy (if s.busy_until < best.busy_until then s else best) rest

/-- A placeholder staff record; returned by `firstMinBusy` only on the
empty list, which every guarded call site excludes. -/
def dummyStaff : Staff :=
  { id := "", type := .TRANSPORT }

/-- First element of the list with minimal `busy_until` (Python `min`
with the `busy_until` key).  In attempt 4 the source sorts by
`(TRANSPORT_PRIORITY[patient.acuity], s.busy_until)` and takes the head;
the first key component is the same for every candidate because a single
fixed patient is dispatched, and Python's sort is stable, so the head is
again the first staff with minimal `busy_until`. -/
def firstMinBusy : List Staff → Staff
  | [] => dummyStaff
  | s :: rest => minByBusy s rest

/-- Replace the staff member with the given id (in-place mutation of the
selected object in the source; ids are unique in the pool). -/
def updateStaff (l : List Staff) (s : Staff) : List Staff :=
  l.map (fun x => if x.id = s.id then s else x)

/-- The result of `_request_transport_resource` together with the state
it may have changed: the returned `(type, staff_id, duration)` triple or
`None`, the patient, the staff pool, the pulley counter and the
enqueued completion events. -/
structure TransportOutcome where
  result : Option (String × Option String × ℚ)
  patient : Patient
  all_staff : List Staff
  pulley_in_use : ℤ
  pushed : List QueuedEvent
deriving DecidableEq, Repr

/-- The broker's local `is_volunteer_hours`:
`VOLUNTEER_HOURS_START <= current_minute_of_day < VOLUNTEER_HOURS_END`
with `current_minute_of_day = event_time % SIM_MINUTES_PER_DAY`. -/
def is_volunteer_hours (cfg : BrokerConfig) (event_time : ℚ) : Prop :=
  cfg.VOLUNTEER_HOURS_START ≤ pymod event_time cfg.SIM_MINUTES_PER_DAY ∧
  pymod event_time cfg.SIM_MINUTES_PER_DAY < cfg.VOLUNTEER_HOURS_END

instance (cfg : BrokerConfig) (event_time : ℚ) :
    Decidable (is_volunteer_hours cfg event_time) :=
  inferInstanceAs (Decidable (_ ∧ _))

/-- The broker's local `available_paid_staff`: all TRANSPORT staff free
at the event time. -/
def available_paid_staff (all_staff : List Staff) (event_time : ℚ) : List Staff :=
  (all_staff.filter (fun s => s.type = .TRANSPORT)).filter
    (fun s => s.is_free event_time)

/-- The broker's local `available_volunteer_staff`: all
VOLUNTEER_TRANSPORT staff free at the event time. -/
def available_volunteer_staff (all_staff : List Staff) (event_time : ℚ) : List Staff :=
  (all_staff.filter (fun s => s.type = .VOLUNTEER_TRANSPORT)).filter
    (fun s => s.is_free event_time)

/-- Attempt 1's guard: origin is pulley-eligible, destination is a
pulley-eligible destination, and a pulley slot is free. -/
def pulleyViable (cfg : BrokerConfig) (patient : Patient)
    (destination_unit_name : String) (pulley_in_use : ℤ) : Prop :=
  patient.current_unit ∈ cfg.PULLEY_ELIGIBLE_UNITS ∧
  destination_unit_name ∈ cfg.PULLEY_ELIGIBLE_DESTINATIONS ∧
  pulley_in_use < cfg.PULLEY_SYSTEM_CAPACITY

instance (cfg : BrokerConfig) (patient : Patient)
    (destination_unit_name : String) (pulley_in_use : ℤ) :
    Decidable (pulleyViable cfg patient destination_unit_name pulley_in_use) :=
  inferInstanceAs (Decidable (_ ∧ _ ∧ _))

/-- `HospitalSimulator._request_transport_resource(patient, event_time,
destination_unit_name)`: the tiered transport policy.  Attempt 1 the
pulley (eligible origin and destination, slot free), attempt 2 a free
paid TRANSPORT staff for a CRITICAL patient, attempt 3 a free
VOLUNTEER_TRANSPORT during volunteer hours for eligible acuities,
attempt 4 any free paid TRANSPORT staff; otherwise fail with no state
change. -/
def request_transport_resource (cfg : BrokerConfig) (draws : TransportDraws)
    (all_staff : List Staff) (pulley_in_use : ℤ)
    (patient : Patient) (event_time : ℚ) (destination_unit_name : String) :
    TransportOutcome :=
  if pulleyViable cfg patient destination_unit_name pulley_in_use then
    let duration := draws.pulley_duration
    { result := some ("PULLEY", none, duration)
      patient := { patient with
        transport_type := some "PULLEY"
        transport_assigned_time := some event_time }
      all_staff := all_staff
      pulley_in_use := pulley_in_use + 1
      pushed := [⟨event_time + duration, "PULLEY_TRANSPORT_COMPLETE",
        some patient.id, some duration⟩] }
  else if patient.acuity = .CRITICAL ∧
      available_paid_staff all_staff event_time ≠ [] then
    let selected_staff := firstMinBusy (available_paid_staff all_staff event_time)
    let duration := draws.paid_duration
    let selected_staff := selected_staff.assign event_time duration
      ("Transport Patient " ++ patient.id ++ " to " ++ destination_unit_name)
      (some patient.current_unit)
    { result := some ("PAID_STAFF", some selected_staff.id, duration)
      patient := { patient with
        assigned_staff_id := some selected_staff.id
        transport_assigned_time := some event_time
        transport_type := some "PAID_STAFF" }
      all_staff := updateStaff all_staff selected_staff
      pulley_in_use := pulley_in_use
      pushed := [⟨event_time + duration, "STAFF_TRANSPORT_COMPLETE",
        some patient.id, some duration⟩] }
  else if is_volunteer_hours cfg event_time ∧
      patient.acuity ∈ cfg.VOLUNTEER_ACUITY_ELIGIBILITY ∧
      available_volunteer_staff all_staff event_time ≠ [] then
    let selected_staff := firstMinBusy (available_volunteer_staff all_staff event_time)
    let duration := draws.volunteer_duration
    let selected_staff := selected_staff.assign event_time duration
      ("Volunteer Transport Patient " ++ patient.id ++ " to " ++ destination_unit_name)
      (some patient.current_unit)
    { result := some ("VOLUNTEER", some selected_staff.id, duration)
      patient := { patient with
        assigned_staff_id := some selected_staff.id
        transport_assigned_time := some event_time
        transport_type := some "VOLUNTEER" }
      all_staff := updateStaff all_staff selected_staff
      pulley_in_use := pulley_in_use
      pushed := [⟨event_time + duration, "STAFF_TRANSPORT_COMPLETE",
        some patient.id, some duration⟩] }
  else if available_paid_staff all_staff event_time ≠ [] then
    let selected_staff := firstMinBusy (available_paid_staff all_staff event_time)
    let duration := draws.paid_duration
    let selected_staff := selected_staff.assign event_time duration
      ("Transport Patient " ++ patient.id ++ " to " ++ destination_unit_name)
      (some patient.current_unit)
    { result := some ("PAID_STAFF", some selected_staff.id, duration)
      patient := { patient with
        assigned_staff_id := some selected_staff.id
        transport_assigned_time := some event_time
        transport_type := some "PAID_STAFF" }
      all_staff := updateStaff all_staff selected_staff
      pulley_in_use := pulley_in_use
      pushed := [⟨event_time + duration, "STAFF_TRANSPORT_COMPLETE",
        some patient.id, some duration⟩] }
  else
    { result := none
      patient := patient
      all_staff := all_staff
      pulley_in_use := pulley_in_use
      pushed := [] }

/-- The accumulators of `MetricsTracker` touched by the modelled
handlers. -/
structure Metrics where
  ed_los_list : List ℚ := []
  ed_boarding_times : List ℚ := []
  total_ed_boarding_time : ℚ := 0
  patient_satisfaction_scores : List ℚ := []
  transfer_times_to_admission : List ℚ := []
  ed_wait_times_for_transport : List ℚ := []
  volunteer_transport_count : ℕ := 0
  paid_transport_count : ℕ := 0
  pulley_transport_count : ℕ := 0
deriving DecidableEq, Repr

/-- `MetricsTracker.add_ed_los`. -/
def Metrics.add_ed_los (m : Metrics) (los : ℚ) : Metrics :=
  { m with ed_los_list := m.ed_los_list ++ [los] }

/-- `MetricsTracker.add_ed_boarding_time`: appends and adds to the
running total. -/
def Metrics.add_ed_boarding_time (m : Metrics) (boarding_time : ℚ) : Metrics :=
  { m with
    ed_boarding_times := m.ed_boarding_times ++ [boarding_time]
    total_ed_boarding_time := m.total_ed_boarding_time + boarding_time }

/-- `MetricsTracker.add_patient_satisfaction_score`. -/
def Metrics.add_patient_satisfaction_score (m : Metrics) (score : ℚ) : Metrics :=
  { m with patient_satisfaction_scores := m.patient_satisfaction_scores ++ [score] }

/-- `MetricsTracker.add_transfer_time_to_admit`. -/
def Metrics.add_transfer_time_to_admission (m : Metrics) (transfer_time : ℚ) : Metrics :=
  { m with transfer_times_to_admission := m.transfer_times_to_admission ++ [transfer_time] }

/-- `MetricsTracker.add_ed_wait_time_for_transport`. -/
def Metrics.add_ed_wait_time_for_transport (m : Metrics) (wait_time : ℚ) : Metrics :=
  { m with ed_wait_times_for_transport := m.ed_wait_times_for_transport ++ [wait_time] }

/-- `MetricsTracker.add_transport_type_count`: bump the counter matching
the transport type string, silently ignoring anything else. -/
def Metrics.add_transport_type_count (m : Metrics) (transport_type : Option String) :
    Metrics :=
  if transport_type = some "VOLUNTEER" then
    { m with volunteer_transport_count := m.volunteer_transport_count + 1 }
  else if transport_type = some "PAID_STAFF" then
    { m with paid_transport_count := m.paid_transport_count + 1 }
  else if transport_type = some "PULLEY" then
    { m with pulley_transport_count := m.pulley_transport_count + 1 }
  else m

/-- The feature toggles passed to the `HospitalSimulator` constructor
that the modelled handlers consult. -/
structure SimFlags where
  enable_cdu : Bool := false
  enable_amenities : Bool := false
  enable_ai_entertainment : Bool := false
deriving DecidableEq, Repr

/-- `HospitalSimulator._determine_patient_disposition(patient,
event_time)` with the two `random.random()` draws of the CDU routing
passed in as `rand`.  On the first call the disposition time is stamped
and the ED length of stay and satisfaction score are recorded; every
call then routes by acuity, enqueuing the follow-on event at the same
time.  (The source's final `else` guard-rail for an unknown acuity
cannot fire: the acuity enumeration is closed.) -/
def determine_patient_disposition (cfg : BrokerConfig) (flags : SimFlags)
    (rand : ℚ) (patient : Patient) (metrics : Metrics) (event_time : ℚ) :
    Patient × Metrics × List QueuedEvent :=
  let pm : Patient × Metrics :=
    match patient.ed_disposition_time with
    | none =>
      let ed_los_val := event_time - patient.arrival_time
      ({ patient with ed_disposition_time := some event_time },
       (metrics.add_ed_los ed_los_val).add_patient_satisfaction_score
         (get_patient_satisfaction_score flags.enable_amenities
           flags.enable_ai_entertainment ed_los_val))
    | some _ => (patient, metrics)
  let patient := pm.1
  let metrics := pm.2
  match patient.acuity with
  | .CRITICAL | .URGENT_ADMIT =>
    ({ patient with status := "ADMIT_INPATIENT_PENDING" }, metrics,
     [⟨event_time, "ADMIT_TO_INPATIENT", some patient.id, none⟩])
  | .URGENT_OBS =>
    if flags.enable_cdu ∧ rand < cfg.CDU_CRITERIA_MATCH then
      ({ patient with status := "ADMIT_CDU_PENDING" }, metrics,
       [⟨event_time, "ADMIT_TO_CDU", some patient.id, none⟩])
    else
      ({ patient with status := "ADMIT_INPATIENT_PENDING" }, metrics,
       [⟨event_time, "ADMIT_TO_INPATIENT", some patient.id, none⟩])
  | .NON_URGENT =>
    if flags.enable_cdu ∧ rand < cfg.CDU_CRITERIA_MATCH * (1/2) then
      ({ patient with status := "ADMIT_CDU_PENDING" }, metrics,
       [⟨event_time, "ADMIT_TO_CDU", some patient.id, none⟩])
    else
      ({ patient with status := "DISCHARGE_PENDING_ORDER" }, metrics,
       [⟨event_time, "DISCHARGE_ORDERED", some patient.id, none⟩])

/-- Repeated runs of the disposition routine on one patient, each with
its own event time and random draw. -/
def runDispositions (cfg : BrokerConfig) (flags : SimFlags) :
    Patient → Metrics → List (ℚ × ℚ) → Patient × Metrics
  | p, m, [] => (p, m)
  | p, m, (t, r) :: rest =>
    let out := determine_patient_disposition cfg flags r p m t
    runDispositions cfg flags out.1 out.2.1 rest

/-- The simulator state shared by the admission and transport-complete
handlers: the unit table (`self.units`, a dict modelled as its lookup
function plus the list of keys), the staff pool, the metrics and the
pulley counter. -/
structure SimState where
  units : String → HospUnit
  unit_names : List String :=
    ["ED", "INPATIENT", "CDU", "IMAGING_CT", "IMAGING_MRI", "LAB", "RADIOLOGY"]
  all_staff : List Staff := []
  metrics : Metrics := {}
  pulley_in_use : ℤ := 0

/-- Point the unit table at an updated unit. -/
def SimState.setUnit (st : SimState) (name : String) (u : HospUnit) : SimState :=
  { st with units := fun n => if n = name then u else st.units n }

/-- `HospitalSimulator._get_free_bed(unit_name)`: the unit exists and its
occupant count is strictly below its capacity. -/
def get_free_bed (st : SimState) (unit_name : String) : Bool :=
  unit_name ∈ st.unit_names ∧
    (st.units unit_name).patients_in_unit.card < (st.units unit_name).capacity

/-- Python truthiness of an optional number (`None` and `0` are falsy),
used by `if patient.boarding_start_time`. -/
def pyTruthy : Option ℚ → Bool
  | none => false
  | some x => x ≠ 0

/-- The `ADMIT_TO_INPATIENT` / `ADMIT_TO_CDU` branch of
`HospitalSimulator._process_event`: if the target unit has no free bed,
retry one tick later (stamping ED boarding on the first miss from the
ED); otherwise stamp `transport_request_time := event_time`, ask the
transport broker, and on success leave the current unit and go in
transit to the target, or else retry one tick later (stamping
`ED_WAIT_FOR_TRANSPORT` on the first miss from the ED).  Returns the
updated simulator state and patient plus the events enqueued (the
broker's completion event or the retry). -/
def process_admit_event (cfg : BrokerConfig) (draws : TransportDraws)
    (event_type : String) (st : SimState) (patient : Patient)
    (event_time : ℚ) : SimState × Patient × List QueuedEvent :=
  let target_unit_name := if event_type = "ADMIT_TO_INPATIENT" then "INPATIENT" else "CDU"
  if ¬ get_free_bed st target_unit_name then
    let retry : List QueuedEvent :=
      [⟨event_time + cfg.TICK_INTERVAL_MINUTES, event_type, some patient.id, none⟩]
    if patient.current_unit = "ED" ∧ patient.status ≠ "ED_BOARDING" then
      (st,
       Patient.add_event
         { patient with boarding_start_time := some event_time, status := "ED_BOARDING" }
         event_time "ED_BOARDING" (some "ED"),
       retry)
    else (st, patient, retry)
  else
    let patient := { patient with transport_request_time := some event_time }
    let o := request_transport_resource cfg draws st.all_staff st.pulley_in_use
      patient event_time target_unit_name
    let st := { st with all_staff := o.all_staff, pulley_in_use := o.pulley_in_use }
    match o.result with
    | some _ =>
      let p := o.patient
      let stp : SimState × Patient :=
        if p.current_unit ∈ st.unit_names ∧
           p.id ∈ (st.units p.current_unit).patients_in_unit then
          let d := (st.units p.current_unit).discharge_patient p event_time
          (st.setUnit p.current_unit d.1, d.2.1)
        else (st, p)
      (stp.1,
       { stp.2 with
          current_unit := target_unit_name
          status := "IN_TRANSIT_TO_" ++ target_unit_name },
       o.pushed)
    | none =>
      let retry : List QueuedEvent :=
        [⟨event_time + cfg.TICK_INTERVAL_MINUTES, event_type, some patient.id, none⟩]
      let p := o.patient
      if p.current_unit = "ED" ∧ p.status ≠ "ED_WAIT_FOR_TRANSPORT" then
        (st,
         Patient.add_event { p with status := "ED_WAIT_FOR_TRANSPORT" }
           event_time "ED_WAIT_FOR_TRANSPORT" (some "ED"),
         retry)
      else (st, p, retry)

/-- The `random.randint` draws made inside the transport-complete
handler when a stay or observation is scheduled. -/
structure StayDraws where
  stay_duration : ℚ := 0
  cdu_obs_duration : ℚ := 0
deriving DecidableEq, Repr

/-- The `PULLEY_TRANSPORT_COMPLETE` / `STAFF_TRANSPORT_COMPLETE` branch
of `HospitalSimulator._process_event`: log arrival, count the transport
type, record the transfer time, decrement the pulley slot for a pulley
event, record the ED wait for transport for non-pulley transports, and
continue according to the in-transit status — for
`IN_TRANSIT_TO_INPATIENT` / `IN_TRANSIT_TO_CDU`, admit to the target
unit (the current unit, set when transport was granted), log the
admission, record and clear ED boarding only when
`patient.current_unit == 'ED'`, and schedule the stay checks or the
observation completion. -/
def process_transport_complete (cfg : BrokerConfig) (draws : StayDraws)
    (event_type : String) (st : SimState) (patient : Patient)
    (event_time : ℚ) (event_data : Option ℚ) :
    SimState × Patient × List QueuedEvent :=
  let duration_of_transport := event_data.getD 0
  let patient := patient.add_event event_time
    ("ARRIVED_AT_" ++ patient.current_unit) (some patient.current_unit)
  let metrics := st.metrics.add_transport_type_count patient.transport_type
  let metrics := metrics.add_transfer_time_to_admission duration_of_transport
  let pulley :=
    if event_type = "PULLEY_TRANSPORT_COMPLETE" then st.pulley_in_use - 1
    else st.pulley_in_use
  let metrics :=
    if patient.transport_type ≠ some "PULLEY" ∧
       patient.transport_request_time ≠ none ∧
       patient.transport_assigned_time ≠ none then
      metrics.add_ed_wait_time_for_transport
        (patient.transport_assigned_time.getD 0 - patient.transport_request_time.getD 0)
    else metrics
  let st := { st with metrics := metrics, pulley_in_use := pulley }
  if patient.status = "IN_TRANSIT_TO_IMAGING" then
    (st, patient, [⟨event_time, "IMAGING_STARTED", some patient.id, none⟩])
  else if patient.status = "IN_TRANSIT_TO_LAB" then
    (st, patient, [⟨event_time, "LAB_STARTED", some patient.id, none⟩])
  else if patient.status = "IN_TRANSIT_TO_INPATIENT" ∨
      patient.status = "IN_TRANSIT_TO_CDU" then
    let target_unit_name := patient.current_unit
    let a := (st.units target_unit_name).admit_patient patient event_time
    let st := st.setUnit target_unit_name a.1
    let p := Patient.add_event a.2.1 event_time
      ("ADMITTED_TO_" ++ target_unit_name) (some target_unit_name)
    let stp : SimState × Patient :=
      if pyTruthy p.boarding_start_time ∧ p.current_unit = "ED" then
        let m := st.metrics.add_ed_boarding_time (event_time - p.boarding_start_time.getD 0)
        ({ st with metrics := m }, { p with boarding_start_time := none })
      else (st, p)
    let st := stp.1
    let p := stp.2
    if target_unit_name = "INPATIENT" then
      (st, { p with status := "INPATIENT_STAY" },
       [⟨event_time + draws.stay_duration, "INPATIENT_PATIENT_CHECK", some p.id, none⟩,
        ⟨event_time + cfg.INPATIENT_CDU_CHECK_INTERVAL, "INPATIENT_PATIENT_CHECK",
          some p.id, none⟩])
    else if target_unit_name = "CDU" then
      (st, { p with status := "CDU_OBSERVATION" },
       [⟨event_time + draws.cdu_obs_duration, "CDU_OBSERVATION_COMPLETE", some p.id, none⟩])
    else (st, p, [])
  else (st, patient, [])

/-- The pulley slot counter together with the number of
`PULLEY_TRANSPORT_COMPLETE` events sitting in the queue. -/
structure PulleySys where
  in_use : ℤ
  pending : ℕ
deriving DecidableEq, Repr

/-- The three transitions of a run that touch the pulley counter or its
completion events: a dispatch through attempt 1 of
`_request_transport_resource` (guarded by `pulley_in_use <
PULLEY_SYSTEM_CAPACITY`; increments the counter and enqueues one
completion event), the processing of a queued completion event
(decrements the counter), and the run loop dropping a queued completion
event whose fire time exceeds the horizon (which skips the handler and
hence the decrement). -/
inductive PulleyStep (cap : ℤ) : PulleySys → PulleySys → Prop
  | dispatch (u : ℤ) (p : ℕ) : u < cap → PulleyStep cap ⟨u, p⟩ ⟨u + 1, p + 1⟩
  | complete (u : ℤ) (p : ℕ) : PulleyStep cap ⟨u, p + 1⟩ ⟨u - 1, p⟩
  | drop (u : ℤ) (p : ℕ) : PulleyStep cap ⟨u, p + 1⟩ ⟨u, p⟩

/-- States reachable from the initial state (counter 0, no pending
completion events) by any number of pulley transitions. -/
def PulleyReachable (cap : ℤ) : PulleySys → Prop :=
  Relation.ReflTransGen (PulleyStep cap) ⟨0, 0⟩

/-- Sum of the durations of a list of `(start_time, duration)`
assignments. -/
def sumDurations : List (ℚ × ℚ) → ℚ
  | [] => 0
  | (_, d) :: rest => d + sumDurations rest

/-- Run a staff member through a sequence of `(start_time, duration)`
assignments via `Staff.assign` (each call first accrues the previous
completed task, exactly as the source does). -/
def runAssignments (s : Staff) : List (ℚ × ℚ) → Staff
  | [] => s
  | (t, d) :: rest => runAssignments (s.assign t d "task" none) rest

/-- A chain of assignments in which each task starts no earlier than the
previous task finished (so each accrual sees a completed task) and every
duration is positive. -/
def validChain (busy : ℚ) : List (ℚ × ℚ) → Bool
  | [] => true
  | (t, d) :: rest => if busy ≤ t ∧ 0 < d then validChain (t + d) rest else false

/-- The `busy_until` value after the last assignment of a chain. -/
def chainEnd (busy : ℚ) : List (ℚ × ℚ) → ℚ
  | [] => busy
  | (t, d) :: rest => chainEnd (t + d) rest

/-- Concrete scenario for the admission transport-complete handler: the
ED holding patient `p1`, an empty inpatient ward, and one idle paid
transport staff member. -/
def edUnitC1 : HospUnit :=
  { name := "ED", capacity := 45, patients_in_unit := {"p1"} }

/-- The inpatient ward of the concrete scenario. -/
def inpatientUnitC1 : HospUnit :=
  { name := "INPATIENT", capacity := 165 }

/-- The unit table of the concrete scenario. -/
def unitsC1 : String → HospUnit := fun n =>
  if n = "ED" then edUnitC1
  else if n = "INPATIENT" then inpatientUnitC1
  else { name := n, capacity := 0 }

/-- The idle paid transport staff member of the concrete scenario. -/
def staffC1 : Staff :=
  { id := "s1", type := .TRANSPORT }

/-- The simulator state of the concrete scenario. -/
def stC1 : SimState :=
  { units := unitsC1, all_staff := [staffC1] }

/-- A patient boarding in the ED since time 100 awaiting an inpatient
bed (the state the `ADMIT_TO_INPATIENT` handler produces on a first
bed-capacity miss from the ED). -/
def patC1 : Patient :=
  { id := "p1", arrival_time := 0, acuity := .URGENT_ADMIT,
    current_unit := "ED", status := "ED_BOARDING",
    boarding_start_time := some 100 }

/-- Transport draws for the concrete scenario (a 20-minute paid
transfer, within `TRANSFER_PROCESS_TIME = (15, 30)`). -/
def drawsC1 : TransportDraws :=
  { paid_duration := 20 }

/-- The `ADMIT_TO_INPATIENT` event fired at time 200 on the concrete
scenario: the bed is free, transport is granted to the paid staff, and
the patient goes in transit to INPATIENT. -/
def admitStepC1 : SimState × Patient × List QueuedEvent :=
  process_admit_event {} drawsC1 "ADMIT_TO_INPATIENT" stC1 patC1 200

/-- The matching `STAFF_TRANSPORT_COMPLETE` event fired at time 220 on
the state and patient left by `admitStepC1`. -/
def completeStepC1 : SimState × Patient × List QueuedEvent :=
  process_transport_complete {} {} "STAFF_TRANSPORT_COMPLETE"
    admitStepC1.1 admitStepC1.2.1 220 (some 20)

/-- The transport kind of a broker outcome (`None` or the first
component of the returned triple). -/
def outcomeKind (o : TransportOutcome) : Option String :=
  o.result.map (fun r => r.1)

/-- Concrete unit for the admission witness: two beds, one occupied. -/
def wUnitC5 : HospUnit :=
  { name := "ED", capacity := 2, patients_in_unit := {"q"} }

/-- Concrete patient for the admission witness. -/
def wPatC5 : Patient :=
  { id := "p", arrival_time := 0, acuity := .NON_URGENT }

/-- Concrete admit/discharge sequence for the capacity-invariant
witness. -/
def wOpsC5 : List UnitOp :=
  [.admission wPatC5 7, .admission { wPatC5 with id := "r" } 8, .discharge wPatC5 9]

/-- The patient as it stands when the admission transport completes:
in transit to INPATIENT with both transport stamps equal to the grant
time 200. -/
def wPatC10b : Patient :=
  { patC1 with
    current_unit := "INPATIENT"
    status := "IN_TRANSIT_TO_INPATIENT"
    transport_type := some "PAID_STAFF"
    transport_request_time := some 200
    transport_assigned_time := some 200 }

/-- Concrete URGENT_OBS patient in the ED for the broker witness. -/
def wPatC4 : Patient :=
  { id := "p4", arrival_time := 0, acuity := .URGENT_OBS, current_unit := "ED" }

/-- Concrete idle volunteer transporter for the broker witness. -/
def wVolStaffC4 : Staff :=
  { id := "v1", type := .VOLUNTEER_TRANSPORT }

/-! ## Theorems -/

theorem rat_floor_eq_floor (q : ℚ) : Rat.floor q = ⌊q⌋ := by
  rw [Rat.floor_def' q, Rat.floor_def]

theorem pymod_eq_self (a n : ℚ) (h0 : 0 ≤ a) (h : a < n) : pymod a n = a := by
  have hn : 0 < n := lt_of_le_of_lt h0 h
  have hfl : ⌊a / n⌋ = 0 := by
    rw [Int.floor_eq_zero_iff]
    exact ⟨div_nonneg h0 hn.le, (div_lt_one hn).2 h⟩
  unfold pymod
  rw [rat_floor_eq_floor, hfl]
  simp

theorem clamp_comm (x : ℚ) : max 1 (min 100 x) = min 100 (max 1 x) := by
  rw [min_max_distrib_left]
  norm_num

/-- C7: for every ED length of stay `L` the satisfaction score computed
by `_get_patient_satisfaction_score` equals the specification's formula —
base 100 for `L ≤ 30`, base 1 for `L ≥ 480`, otherwise
`100 - ((L - 30) / 450) * 99`, plus 10 for amenities and 15 for
entertainment, clamped into `[1, 100]` — and the result always lies in
`[1, 100]`. -/
theorem C7_satisfaction_score_correct (a e : Bool) (L : ℚ) :
    get_patient_satisfaction_score a e L = satisfactionSpec a e L ∧
    1 ≤ get_patient_satisfaction_score a e L ∧
    get_patient_satisfaction_score a e L ≤ 100 := by
  refine ⟨?_, ?_, ?_⟩
  · unfold get_patient_satisfaction_score satisfactionSpec
    rw [← clamp_comm]
    cases a <;> cases e <;> simp only [if_true, if_false, Bool.false_eq_true] <;>
      split_ifs <;> (norm_num; try ring_nf)
  · unfold get_patient_satisfaction_score
    exact le_max_left _ _
  · unfold get_patient_satisfaction_score
    exact max_le (by norm_num) (min_le_left _ _)

theorem applyOp_card_le (u : HospUnit) (op : UnitOp)
    (h : u.patients_in_unit.card ≤ u.capacity) :
    (u.applyOp op).patients_in_unit.card ≤ (u.applyOp op).capacity := by
  cases op with
  | admission p t =>
    simp only [HospUnit.applyOp, HospUnit.admit_patient]
    split_ifs with hc
    · simpa using Nat.le_trans (Finset.card_insert_le _ _) hc
    · exact h
  | discharge p t =>
    simp only [HospUnit.applyOp, HospUnit.discharge_patient]
    split_ifs with hc
    · simpa using Nat.le_trans Finset.card_erase_le h
    · exact h

theorem applyOps_card_le (ops : List UnitOp) : ∀ (u : HospUnit),
    u.patients_in_unit.card ≤ u.capacity →
    (u.applyOps ops).patients_in_unit.card ≤ (u.applyOps ops).capacity := by
  induction ops with
  | nil => intro u h; exact h
  | cons op rest ih =>
    intro u h
    exact ih _ (applyOp_card_le u op h)

/-- C5: `Unit.admit_patient` succeeds — returns true and inserts the
patient id — exactly when the occupant count is strictly below the
capacity at the time of the call, and under any sequence of
admissions/discharges (the only operations that touch the occupant set)
a unit whose occupant count is within capacity keeps it within
capacity. -/
theorem C5_unit_admission_and_capacity (u : HospUnit) (p : Patient) (t : ℚ)
    (ops : List UnitOp) (h : u.patients_in_unit.card ≤ u.capacity) :
    ((u.admit_patient p t).2.2 = true ↔ u.patients_in_unit.card < u.capacity) ∧
    ((u.admit_patient p t).2.2 = true →
      p.id ∈ (u.admit_patient p t).1.patients_in_unit) ∧
    (u.applyOps ops).patients_in_unit.card ≤ (u.applyOps ops).capacity := by
  refine ⟨?_, ?_, applyOps_card_le ops u h⟩
  · unfold HospUnit.admit_patient
    split_ifs with hc <;> simp [hc]
  · unfold HospUnit.admit_patient
    split_ifs with hc <;> simp

/-- C5 witness: a concrete unit with one occupied of two beds satisfies
the hypothesis, and the theorem applies to it. -/
theorem C5_unit_admission_witness :
    (wUnitC5.patients_in_unit.card ≤ wUnitC5.capacity) ∧
    (((wUnitC5.admit_patient wPatC5 7).2.2 = true ↔
        wUnitC5.patients_in_unit.card < wUnitC5.capacity) ∧
      ((wUnitC5.admit_patient wPatC5 7).2.2 = true →
        wPatC5.id ∈ (wUnitC5.admit_patient wPatC5 7).1.patients_in_unit) ∧
      (wUnitC5.applyOps wOpsC5).patients_in_unit.card ≤
        (wUnitC5.applyOps wOpsC5).capacity) :=
  ⟨by decide, C5_unit_admission_and_capacity wUnitC5 wPatC5 7 wOpsC5 (by decide)⟩

theorem occupancyPairSum_eq_rangeSum (pts : List (ℚ × ℚ)) :
    occupancyPairSum pts =
      (Finset.range (pts.length - 1)).sum (fun i =>
        (pts.getD i (0, 0)).2 *
          ((pts.getD (i + 1) (0, 0)).1 - (pts.getD i (0, 0)).1)) := by
  induction pts with
  | nil => simp [occupancyPairSum]
  | cons a rest ih =>
    cases rest with
    | nil => simp [occupancyPairSum]
    | cons b rest2 =>
      rw [occupancyPairSum]
      rw [ih]
      have hlen : (a :: b :: rest2 : List (ℚ × ℚ)).length - 1 =
          ((b :: rest2 : List (ℚ × ℚ)).length - 1) + 1 := by
        simp
      rw [hlen, Finset.sum_range_succ']
      simp only [List.getD_cons_succ, List.getD_cons_zero]
      ring

/-- C8: for every occupancy series, the weighted average computed by
`calculate_weighted_average_occupancy` over a positive horizon `H`
equals the specification's `(1/H) * (Σ c_{i-1} (t_i - t_{i-1}) +
c_{n-1} (H - t_{n-1}))`, with a single point giving its own count and an
empty series giving 0; and the utilization percentage equals
`100 * avg / capacity` for positive capacity and 0 otherwise. -/
theorem C8_weighted_average_occupancy (pts : List (ℚ × ℚ)) (H cap : ℚ)
    (hH : 0 < H) :
    calculate_weighted_average_occupancy pts H H = weightedAverageSpec pts H ∧
    utilizationPercent (calculate_weighted_average_occupancy pts H H) cap =
      (if 0 < cap then
        100 * calculate_weighted_average_occupancy pts H H / cap else 0) := by
  constructor
  · match pts with
    | [] => simp [calculate_weighted_average_occupancy, weightedAverageSpec]
    | [p] => simp [calculate_weighted_average_occupancy, weightedAverageSpec]
    | a :: b :: rest =>
      have hlen : 1 < (a :: b :: rest : List (ℚ × ℚ)).length := by
        simp
      rw [calculate_weighted_average_occupancy, if_pos hlen, if_pos hH]
      rw [weightedAverageSpec]
      rw [occupancyPairSum_eq_rangeSum]
      rw [div_eq_mul_inv, one_div, mul_comm]
  · unfold utilizationPercent
    split_ifs with hc
    · rw [div_mul_eq_mul_div, mul_comm]
    · rfl

/-- C8 witness: the theorem applied to a concrete three-point series
over the horizon 100 with capacity 10. -/
theorem C8_weighted_average_occupancy_witness :
    (0 : ℚ) < 100 ∧
    (calculate_weighted_average_occupancy [(0, 2), (40, 5), (70, 3)] 100 100 =
        weightedAverageSpec [(0, 2), (40, 5), (70, 3)] 100 ∧
      utilizationPercent
          (calculate_weighted_average_occupancy [(0, 2), (40, 5), (70, 3)] 100 100) 10 =
        (if (0 : ℚ) < 10 then
          100 * calculate_weighted_average_occupancy [(0, 2), (40, 5), (70, 3)] 100 100 / 10
        else 0)) :=
  ⟨by norm_num, C8_weighted_average_occupancy [(0, 2), (40, 5), (70, 3)] 100 10 (by norm_num)⟩

/-- C2 counterexample: two events share `fire_time = 5`; the event with
kind "B" is enqueued first, yet the heap dispatches the later-enqueued
event with kind "A" first, so the scheduler is not insertion-order FIFO
among simultaneous events and does depend on the events' kinds. -/
theorem C2_fifo_counterexample :
    (heappop (heappush (heappush [] ⟨5, "B"⟩) ⟨5, "A"⟩)).map Prod.fst =
      some ⟨5, "A"⟩ ∧
    (⟨5, "A"⟩ : QEntry) ≠ ⟨5, "B"⟩ := by
  decide

/-- C2 amended: among two events enqueued with the same `fire_time`, the
queue dispatches first the one whose event-kind string is
lexicographically smaller (Python tuple comparison on
`(fire_time, event_kind, ...)`), regardless of insertion order. -/
theorem C2_tie_broken_by_event_kind (t : ℚ) (k1 k2 : String)
    (h : pyStrLt k2 k1 = true) :
    heappop (heappush (heappush [] ⟨t, k1⟩) ⟨t, k2⟩) =
      some (⟨t, k2⟩, [⟨t, k1⟩]) := by
  simp [heappush, heappop, siftdownAux, siftup, siftupLoop, QEntry.lt, h,
    lt_irrefl, List.getLast?, List.dropLast]

/-- C2 witness: the amended theorem applied at time 5 with kinds "B"
(enqueued first) and "A" (enqueued second). -/
theorem C2_tie_broken_witness :
    pyStrLt "A" "B" = true ∧
    heappop (heappush (heappush [] ⟨5, "B"⟩) ⟨5, "A"⟩) =
      some (⟨5, "A"⟩, [⟨5, "B"⟩]) :=
  ⟨by decide, C2_tie_broken_by_event_kind 5 "B" "A" (by decide)⟩

/-- C3 counterexample: a NURSE (rate 1 per minute) completing a single
10-minute assignment accrues `8 + 3 = 11`, not `rate × duration = 10`:
the 80/20 split scaled by `(1, 1.5)` sums to `1.1 × rate × duration`. -/
theorem C3_cost_split_counterexample :
    ¬ (((runAssignments { id := "n1", type := .NURSE } [(0, 10)]).accrue_remaining_cost
          100).total_normal_cost +
        ((runAssignments { id := "n1", type := .NURSE } [(0, 10)]).accrue_remaining_cost
          100).total_overtime_cost =
        costPerMinute .NURSE * sumDurations [(0, 10)]) := by
  norm_num [runAssignments, Staff.assign, Staff.accrue_cost_for_completed_task,
    Staff.accrue_remaining_cost, sumDurations, costPerMinute, overtime_fraction,
    OVERTIME_MULTIPLIER]

theorem accrue_chain_pending (tasks : List (ℚ × ℚ)) : ∀ (s : Staff) (start T : ℚ),
    s.last_assignment_start_time = some start →
    start < s.busy_until →
    validChain s.busy_until tasks = true →
    chainEnd s.busy_until tasks ≤ T →
    ((runAssignments s tasks).accrue_remaining_cost T).total_normal_cost =
      s.total_normal_cost + (1 - overtime_fraction) * costPerMinute s.type *
        (s.busy_until - start + sumDurations tasks) ∧
    ((runAssignments s tasks).accrue_remaining_cost T).total_overtime_cost =
      s.total_overtime_cost + overtime_fraction * OVERTIME_MULTIPLIER * costPerMinute s.type *
        (s.busy_until - start + sumDurations tasks) := by
  induction tasks with
  | nil =>
    intro s start T hlast hpos hchain hend
    simp only [chainEnd] at hend
    simp only [runAssignments, sumDurations]
    simp only [Staff.accrue_remaining_cost, hlast]
    rw [min_eq_right hend]
    rw [if_pos (by linarith : (0 : ℚ) < s.busy_until - start)]
    constructor <;> ring
  | cons td rest ih =>
    obtain ⟨t, d⟩ := td
    intro s start T hlast hpos hchain hend
    rw [validChain] at hchain
    split_ifs at hchain with hc
    · obtain ⟨hbt, hd⟩ := hc
      simp only [chainEnd] at hend
      simp only [runAssignments, sumDurations]
      have hassign : s.assign t d "task" none =
          { s with
            total_overtime_cost := s.total_overtime_cost +
              costPerMinute s.type * (s.busy_until - start) * overtime_fraction *
                OVERTIME_MULTIPLIER
            total_normal_cost := s.total_normal_cost +
              costPerMinute s.type * (s.busy_until - start) * (1 - overtime_fraction)
            busy_until := t + d
            last_assignment_start_time := some t
            current_assignment_details := some "task"
            last_assigned_unit := none } := by
        have hpos2 : (0 : ℚ) < s.busy_until - start := by linarith
        unfold Staff.assign Staff.accrue_cost_for_completed_task
        rw [hlast]
        dsimp only
        rw [if_pos hbt, if_pos hpos2]
      rw [hassign]
      obtain ⟨ihn, iho⟩ := ih
        { s with
          total_overtime_cost := s.total_overtime_cost +
            costPerMinute s.type * (s.busy_until - start) * overtime_fraction *
              OVERTIME_MULTIPLIER
          total_normal_cost := s.total_normal_cost +
            costPerMinute s.type * (s.busy_until - start) * (1 - overtime_fraction)
          busy_until := t + d
          last_assignment_start_time := some t
          current_assignment_details := some "task"
          last_assigned_unit := none } t T rfl
        (by show t < t + d; linarith) hchain hend
      rw [ihn, iho]
      constructor <;> (dsimp only; ring)

/-- C3 amended: for a staff member with no assignment in progress, after
a chain of non-overlapping positive-duration assignments accrued via
`assign` and a final `accrue_remaining_cost` at or after the last
completion, the accrued `normal_cost + overtime_cost` equals
`1.1 × rate × Σ durations` — the normal part is `0.8 × rate × d` and the
overtime part `0.2 × rate × d × 1.5 = 0.3 × rate × d` per assignment,
which sum to `1.1 × rate × d`, not `rate × d`. -/
theorem C3_cost_split_amended (s : Staff) (tasks : List (ℚ × ℚ)) (T : ℚ)
    (hfresh : s.last_assignment_start_time = none)
    (hchain : validChain s.busy_until tasks = true)
    (hend : chainEnd s.busy_until tasks ≤ T) :
    ((runAssignments s tasks).accrue_remaining_cost T).total_normal_cost +
      ((runAssignments s tasks).accrue_remaining_cost T).total_overtime_cost =
      s.total_normal_cost + s.total_overtime_cost +
        (11 / 10) * costPerMinute s.type * sumDurations tasks := by
  cases tasks with
  | nil =>
    simp only [runAssignments, sumDurations]
    simp only [Staff.accrue_remaining_cost, hfresh]
    ring
  | cons td rest =>
    obtain ⟨t, d⟩ := td
    rw [validChain] at hchain
    split_ifs at hchain with hc
    · obtain ⟨hbt, hd⟩ := hc
      simp only [chainEnd] at hend
      simp only [runAssignments, sumDurations]
      have hassign : s.assign t d "task" none =
          { s with
            busy_until := t + d
            last_assignment_start_time := some t
            current_assignment_details := some "task"
            last_assigned_unit := none } := by
        unfold Staff.assign Staff.accrue_cost_for_completed_task
        rw [hfresh]
      rw [hassign]
      obtain ⟨ihn, iho⟩ := accrue_chain_pending rest
        { s with
          busy_until := t + d
          last_assignment_start_time := some t
          current_assignment_details := some "task"
          last_assigned_unit := none } t T rfl
        (by show t < t + d; linarith) hchain hend
      rw [ihn, iho]
      dsimp only
      unfold overtime_fraction OVERTIME_MULTIPLIER
      ring

/-- C3 witness: the amended theorem applied to a fresh NURSE working two
completed assignments of 10 and 5 minutes, accrued at time 100. -/
theorem C3_cost_split_witness :
    ({ id := "n1", type := .NURSE } : Staff).last_assignment_start_time = none ∧
    validChain ({ id := "n1", type := .NURSE } : Staff).busy_until
      [(0, 10), (20, 5)] = true ∧
    chainEnd ({ id := "n1", type := .NURSE } : Staff).busy_until
      [(0, 10), (20, 5)] ≤ 100 ∧
    ((runAssignments { id := "n1", type := .NURSE } [(0, 10), (20, 5)]).accrue_remaining_cost
        100).total_normal_cost +
      ((runAssignments { id := "n1", type := .NURSE } [(0, 10), (20, 5)]).accrue_remaining_cost
        100).total_overtime_cost =
      ({ id := "n1", type := .NURSE } : Staff).total_normal_cost +
        ({ id := "n1", type := .NURSE } : Staff).total_overtime_cost +
        (11 / 10) * costPerMinute StaffType.NURSE * sumDurations [(0, 10), (20, 5)] :=
  ⟨rfl, by norm_num [validChain], by norm_num [chainEnd],
    C3_cost_split_amended { id := "n1", type := .NURSE } [(0, 10), (20, 5)] 100 rfl
      (by norm_num [validChain]) (by norm_num [chainEnd])⟩

/-- C4: the transport broker takes the first viable option of the strict
priority chain — (1) the pulley when origin and destination are eligible
and a slot is free, (2) a free paid TRANSPORT staff for a CRITICAL
patient, (3) a free VOLUNTEER_TRANSPORT when the minute of day lies in
`[VOLUNTEER_HOURS_START, VOLUNTEER_HOURS_END)` and the acuity is
URGENT_OBS or NON_URGENT, (4) any free paid TRANSPORT staff — and
otherwise fails changing no state. -/
theorem C4_transport_priority_chain (cfg : BrokerConfig) (draws : TransportDraws)
    (all_staff : List Staff) (pulley_in_use : ℤ) (patient : Patient)
    (event_time : ℚ) (dest : String)
    (hvol : cfg.VOLUNTEER_ACUITY_ELIGIBILITY = [.URGENT_OBS, .NON_URGENT]) :
    (pulleyViable cfg patient dest pulley_in_use →
      outcomeKind (request_transport_resource cfg draws all_staff pulley_in_use
        patient event_time dest) = some "PULLEY" ∧
      (request_transport_resource cfg draws all_staff pulley_in_use
        patient event_time dest).pulley_in_use = pulley_in_use + 1) ∧
    (¬ pulleyViable cfg patient dest pulley_in_use →
      patient.acuity = .CRITICAL → available_paid_staff all_staff event_time ≠ [] →
      outcomeKind (request_transport_resource cfg draws all_staff pulley_in_use
        patient event_time dest) = some "PAID_STAFF") ∧
    (¬ pulleyViable cfg patient dest pulley_in_use →
      ¬ (patient.acuity = .CRITICAL ∧ available_paid_staff all_staff event_time ≠ []) →
      is_volunteer_hours cfg event_time →
      (patient.acuity = .URGENT_OBS ∨ patient.acuity = .NON_URGENT) →
      available_volunteer_staff all_staff event_time ≠ [] →
      outcomeKind (request_transport_resource cfg draws all_staff pulley_in_use
        patient event_time dest) = some "VOLUNTEER") ∧
    (¬ pulleyViable cfg patient dest pulley_in_use →
      ¬ (patient.acuity = .CRITICAL ∧ available_paid_staff all_staff event_time ≠ []) →
      ¬ (is_volunteer_hours cfg event_time ∧
          (patient.acuity = .URGENT_OBS ∨ patient.acuity = .NON_URGENT) ∧
          available_volunteer_staff all_staff event_time ≠ []) →
      available_paid_staff all_staff event_time ≠ [] →
      outcomeKind (request_transport_resource cfg draws all_staff pulley_in_use
        patient event_time dest) = some "PAID_STAFF") ∧
    (¬ pulleyViable cfg patient dest pulley_in_use →
      ¬ (is_volunteer_hours cfg event_time ∧
          (patient.acuity = .URGENT_OBS ∨ patient.acuity = .NON_URGENT) ∧
          available_volunteer_staff all_staff event_time ≠ []) →
      available_paid_staff all_staff event_time = [] →
      (request_transport_resource cfg draws all_staff pulley_in_use
          patient event_time dest).result = none ∧
      (request_transport_resource cfg draws all_staff pulley_in_use
          patient event_time dest).patient = patient ∧
      (request_transport_resource cfg draws all_staff pulley_in_use
          patient event_time dest).all_staff = all_staff ∧
      (request_transport_resource cfg draws all_staff pulley_in_use
          patient event_time dest).pulley_in_use = pulley_in_use ∧
      (request_transport_resource cfg draws all_staff pulley_in_use
          patient event_time dest).pushed = []) := by
  have memIff : ∀ a : Acuity, a ∈ cfg.VOLUNTEER_ACUITY_ELIGIBILITY ↔
      (a = .URGENT_OBS ∨ a = .NON_URGENT) := by
    intro a
    rw [hvol]
    simp
  refine ⟨?_, ?_, ?_, ?_, ?_⟩
  · intro h1
    unfold request_transport_resource outcomeKind
    rw [if_pos h1]
    exact ⟨rfl, rfl⟩
  · intro h1 h2 h3
    unfold request_transport_resource outcomeKind
    rw [if_neg h1, if_pos ⟨h2, h3⟩]
    rfl
  · intro h1 h2 hvh hacu hav
    unfold request_transport_resource outcomeKind
    rw [if_neg h1, if_neg h2, if_pos ⟨hvh, (memIff _).2 hacu, hav⟩]
    rfl
  · intro h1 h2 h3 h4
    have h3' : ¬ (is_volunteer_hours cfg event_time ∧
        patient.acuity ∈ cfg.VOLUNTEER_ACUITY_ELIGIBILITY ∧
        available_volunteer_staff all_staff event_time ≠ []) := by
      intro hx
      exact h3 ⟨hx.1, (memIff _).1 hx.2.1, hx.2.2⟩
    unfold request_transport_resource outcomeKind
    rw [if_neg h1, if_neg h2, if_neg h3', if_pos h4]
    rfl
  · intro h1 h3 h4
    have h2' : ¬ (patient.acuity = .CRITICAL ∧
        available_paid_staff all_staff event_time ≠ []) := by
      intro hx
      exact hx.2 h4
    have h3' : ¬ (is_volunteer_hours cfg event_time ∧
        patient.acuity ∈ cfg.VOLUNTEER_ACUITY_ELIGIBILITY ∧
        available_volunteer_staff all_staff event_time ≠ []) := by
      intro hx
      exact h3 ⟨hx.1, (memIff _).1 hx.2.1, hx.2.2⟩
    have h4' : ¬ (available_paid_staff all_staff event_time ≠ []) := by
      intro hx
      exact hx h4
    unfold request_transport_resource
    rw [if_neg h1, if_neg h2', if_neg h3', if_neg h4']
    exact ⟨rfl, rfl, rfl, rfl, rfl⟩

/-- C4 witness: an URGENT_OBS patient at minute 540 (9:00) with only an
idle volunteer available is assigned the volunteer (chain position 3). -/
theorem C4_transport_priority_witness :
    ¬ pulleyViable {} wPatC4 "INPATIENT" 0 ∧
    ¬ (wPatC4.acuity = .CRITICAL ∧ available_paid_staff [wVolStaffC4] 540 ≠ []) ∧
    is_volunteer_hours {} 540 ∧
    (wPatC4.acuity = .URGENT_OBS ∨ wPatC4.acuity = .NON_URGENT) ∧
    available_volunteer_staff [wVolStaffC4] 540 ≠ [] ∧
    outcomeKind (request_transport_resource {} {} [wVolStaffC4] 0 wPatC4 540
      "INPATIENT") = some "VOLUNTEER" := by
  have hvh : is_volunteer_hours {} 540 := by
    unfold is_volunteer_hours
    rw [show pymod 540 (BrokerConfig.SIM_MINUTES_PER_DAY {}) = 540 from
      pymod_eq_self 540 _ (by norm_num) (by norm_num)]
    norm_num
  refine ⟨?_, ?_, hvh, Or.inl rfl, ?_, ?_⟩
  · decide
  · decide
  · decide
  · exact (C4_transport_priority_chain {} {} [wVolStaffC4] 0 wPatC4 540
      "INPATIENT" rfl).2.2.1 (by decide) (by decide) hvh (Or.inl rfl) (by decide)

theorem pulley_reachable_inv (cap : ℤ) (hcap : 0 ≤ cap) (s : PulleySys)
    (h : PulleyReachable cap s) :
    (s.pending : ℤ) ≤ s.in_use ∧ s.in_use ≤ cap := by
  induction h with
  | refl => simpa using hcap
  | tail _ step ih =>
    obtain ⟨ih1, ih2⟩ := ih
    cases step with
    | dispatch u p hu =>
      constructor
      · simp only [] at ih1 ⊢
        push_cast
        linarith
      · simp only [] at ih2 ⊢
        omega
    | complete u p =>
      constructor
      · simp only [] at ih1 ⊢
        push_cast at ih1 ⊢
        linarith
      · simp only [] at ih2 ⊢
        omega
    | drop u p =>
      constructor
      · simp only [] at ih1 ⊢
        push_cast at ih1 ⊢
        linarith
      · exact ih2

/-- C6: in every run, `0 ≤ pulley_in_use ≤ PULLEY_SYSTEM_CAPACITY` holds
at every event boundary — every reachable state of the pulley transition
system keeps the counter within bounds, each decrement consuming a
pending completion event enqueued by an earlier increment — and the
broker increments the counter only when it is strictly below capacity at
dispatch. -/
theorem C6_pulley_counter_bounds (cap : ℤ) (s : PulleySys)
    (hcap : 0 ≤ cap) (h : PulleyReachable cap s) :
    (0 ≤ s.in_use ∧ s.in_use ≤ cap) ∧
    ∀ (cfg : BrokerConfig) (draws : TransportDraws) (all_staff : List Staff)
      (pulley_in_use : ℤ) (patient : Patient) (event_time : ℚ) (dest : String),
      (request_transport_resource cfg draws all_staff pulley_in_use
          patient event_time dest).pulley_in_use ≠ pulley_in_use →
      pulley_in_use < cfg.PULLEY_SYSTEM_CAPACITY ∧
      (request_transport_resource cfg draws all_staff pulley_in_use
          patient event_time dest).pulley_in_use = pulley_in_use + 1 := by
  obtain ⟨h1, h2⟩ := pulley_reachable_inv cap hcap s h
  refine ⟨⟨le_trans (by positivity) h1, h2⟩, ?_⟩
  intro cfg draws all_staff pulley_in_use patient event_time dest hne
  unfold request_transport_resource at hne ⊢
  split_ifs at hne ⊢ with hc1 hc2 hc3 hc4
  · exact ⟨hc1.2.2, rfl⟩
  · exact absurd rfl hne
  · exact absurd rfl hne
  · exact absurd rfl hne
  · exact absurd rfl hne

/-- C6 witness: with capacity 2, the state after one dispatch is
reachable and satisfies the bounds; the broker conjunct is instantiated
on a concrete call that leaves the counter unchanged vacuously. -/
theorem C6_pulley_counter_witness :
    (0 : ℤ) ≤ 2 ∧ PulleyReachable 2 ⟨1, 1⟩ ∧
    ((0 ≤ (⟨1, 1⟩ : PulleySys).in_use ∧ (⟨1, 1⟩ : PulleySys).in_use ≤ 2) ∧
      ∀ (cfg : BrokerConfig) (draws : TransportDraws) (all_staff : List Staff)
        (pulley_in_use : ℤ) (patient : Patient) (event_time : ℚ) (dest : String),
        (request_transport_resource cfg draws all_staff pulley_in_use
            patient event_time dest).pulley_in_use ≠ pulley_in_use →
        pulley_in_use < cfg.PULLEY_SYSTEM_CAPACITY ∧
        (request_transport_resource cfg draws all_staff pulley_in_use
            patient event_time dest).pulley_in_use = pulley_in_use + 1) :=
  ⟨by norm_num,
   Relation.ReflTransGen.single (PulleyStep.dispatch 0 0 (by norm_num)),
   C6_pulley_counter_bounds 2 ⟨1, 1⟩ (by norm_num)
     (Relation.ReflTransGen.single (PulleyStep.dispatch 0 0 (by norm_num)))⟩

theorem determine_disposition_first (cfg : BrokerConfig) (flags : SimFlags)
    (r : ℚ) (p : Patient) (m : Metrics) (t : ℚ)
    (h : p.ed_disposition_time = none) :
    (determine_patient_disposition cfg flags r p m t).1.ed_disposition_time = some t ∧
    (determine_patient_disposition cfg flags r p m t).2.1.ed_los_list =
      m.ed_los_list ++ [t - p.arrival_time] ∧
    (determine_patient_disposition cfg flags r p m t).2.1.patient_satisfaction_scores =
      m.patient_satisfaction_scores ++
        [get_patient_satisfaction_score flags.enable_amenities
          flags.enable_ai_entertainment (t - p.arrival_time)] := by
  unfold determine_patient_disposition
  rw [h]
  dsimp only
  cases hA : p.acuity <;> dsimp only <;> try split_ifs
  all_goals exact ⟨rfl, rfl, rfl⟩

theorem determine_disposition_stable (cfg : BrokerConfig) (flags : SimFlags)
    (r : ℚ) (p : Patient) (m : Metrics) (t s : ℚ)
    (h : p.ed_disposition_time = some s) :
    (determine_patient_disposition cfg flags r p m t).1.ed_disposition_time = some s ∧
    (determine_patient_disposition cfg flags r p m t).2.1.ed_los_list = m.ed_los_list ∧
    (determine_patient_disposition cfg flags r p m t).2.1.patient_satisfaction_scores =
      m.patient_satisfaction_scores := by
  unfold determine_patient_disposition
  rw [h]
  dsimp only
  cases hA : p.acuity <;> dsimp only <;> try split_ifs
  all_goals exact ⟨h, rfl, rfl⟩

theorem runDispositions_stable (cfg : BrokerConfig) (flags : SimFlags)
    (calls : List (ℚ × ℚ)) :
    ∀ (q : Patient) (m : Metrics) (s : ℚ), q.ed_disposition_time = some s →
    (runDispositions cfg flags q m calls).1.ed_disposition_time = some s ∧
    (runDispositions cfg flags q m calls).2.ed_los_list = m.ed_los_list ∧
    (runDispositions cfg flags q m calls).2.patient_satisfaction_scores =
      m.patient_satisfaction_scores := by
  induction calls with
  | nil => intro q m s h; exact ⟨h, rfl, rfl⟩
  | cons tr rest ih =>
    obtain ⟨t, r⟩ := tr
    intro q m s h
    simp only [runDispositions]
    obtain ⟨h1, h2, h3⟩ := determine_disposition_stable cfg flags r q m t s h
    obtain ⟨g1, g2, g3⟩ := ih _ _ s h1
    exact ⟨g1, by rw [g2, h2], by rw [g3, h3]⟩

/-- C9: no matter how many times the disposition routine runs for a
patient, `ed_disposition_time` is stamped once with the first run's
time, and exactly one ED length-of-stay value and one satisfaction score
are recorded. -/
theorem C9_disposition_idempotent (cfg : BrokerConfig) (flags : SimFlags)
    (p : Patient) (m : Metrics) (t r : ℚ) (rest : List (ℚ × ℚ))
    (h : p.ed_disposition_time = none) :
    (runDispositions cfg flags p m ((t, r) :: rest)).1.ed_disposition_time = some t ∧
    (runDispositions cfg flags p m ((t, r) :: rest)).2.ed_los_list =
      m.ed_los_list ++ [t - p.arrival_time] ∧
    (runDispositions cfg flags p m ((t, r) :: rest)).2.patient_satisfaction_scores =
      m.patient_satisfaction_scores ++
        [get_patient_satisfaction_score flags.enable_amenities
          flags.enable_ai_entertainment (t - p.arrival_time)] := by
  simp only [runDispositions]
  obtain ⟨h1, h2, h3⟩ := determine_disposition_first cfg flags r p m t h
  obtain ⟨g1, g2, g3⟩ := runDispositions_stable cfg flags rest _ _ t h1
  exact ⟨g1, by rw [g2, h2], by rw [g3, h3]⟩

/-- C9 witness: the theorem applied to a fresh NON_URGENT patient whose
disposition routine runs three times (at 50, 60 and 65). -/
theorem C9_disposition_idempotent_witness :
    ({ id := "p9", arrival_time := 10, acuity := .NON_URGENT } :
        Patient).ed_disposition_time = none ∧
    ((runDispositions {} {} { id := "p9", arrival_time := 10, acuity := .NON_URGENT }
        {} [(50, 0), (60, 1), (65, 0)]).1.ed_disposition_time = some 50 ∧
      (runDispositions {} {} { id := "p9", arrival_time := 10, acuity := .NON_URGENT }
        {} [(50, 0), (60, 1), (65, 0)]).2.ed_los_list =
        ({} : Metrics).ed_los_list ++ [50 - 10] ∧
      (runDispositions {} {} { id := "p9", arrival_time := 10, acuity := .NON_URGENT }
        {} [(50, 0), (60, 1), (65, 0)]).2.patient_satisfaction_scores =
        ({} : Metrics).patient_satisfaction_scores ++
          [get_patient_satisfaction_score false false (50 - 10)]) :=
  ⟨rfl, C9_disposition_idempotent {} {}
    { id := "p9", arrival_time := 10, acuity := .NON_URGENT } {} 50 0
    [(60, 1), (65, 0)] rfl⟩

theorem request_transport_success_stamps (cfg : BrokerConfig) (draws : TransportDraws)
    (all_staff : List Staff) (pulley_in_use : ℤ) (patient : Patient)
    (event_time : ℚ) (dest : String)
    (h : (request_transport_resource cfg draws all_staff pulley_in_use
        patient event_time dest).result ≠ none) :
    (request_transport_resource cfg draws all_staff pulley_in_use
        patient event_time dest).patient.transport_assigned_time = some event_time ∧
    (request_transport_resource cfg draws all_staff pulley_in_use
        patient event_time dest).patient.transport_request_time =
      patient.transport_request_time := by
  unfold request_transport_resource at h ⊢
  split_ifs at h ⊢
  · exact ⟨rfl, rfl⟩
  · exact ⟨rfl, rfl⟩
  · exact ⟨rfl, rfl⟩
  · exact ⟨rfl, rfl⟩
  · exact absurd rfl h

/-- C10: on the `ADMIT_TO_INPATIENT` / `ADMIT_TO_CDU` path,
`transport_request_time` is stamped with the current event time after
the bed-capacity check passes, so that whenever the broker grants
transport there, `transport_assigned_time = transport_request_time`; and
the transport-complete handler's ED wait-for-transport sample for any
non-pulley transport with equal request and assignment stamps is 0. -/
theorem C10_admit_transport_wait_zero :
    (∀ (cfg : BrokerConfig) (draws : TransportDraws) (st : SimState) (p : Patient)
        (t : ℚ) (et : String),
      get_free_bed st (if et = "ADMIT_TO_INPATIENT" then "INPATIENT" else "CDU") = true →
      (request_transport_resource cfg draws st.all_staff st.pulley_in_use
          { p with transport_request_time := some t } t
          (if et = "ADMIT_TO_INPATIENT" then "INPATIENT" else "CDU")).result ≠ none →
      (process_admit_event cfg draws et st p t).2.1.transport_request_time = some t ∧
      (process_admit_event cfg draws et st p t).2.1.transport_assigned_time = some t) ∧
    (∀ (cfg : BrokerConfig) (sd : StayDraws) (et2 : String) (st2 : SimState)
        (q : Patient) (t2 : ℚ) (dur : Option ℚ) (t0 : ℚ),
      q.transport_type ≠ some "PULLEY" →
      q.transport_request_time = some t0 →
      q.transport_assigned_time = some t0 →
      (process_transport_complete cfg sd et2 st2 q t2
          dur).1.metrics.ed_wait_times_for_transport =
        st2.metrics.ed_wait_times_for_transport ++ [0]) := by
  constructor
  · intro cfg draws st p t et hbed hres
    obtain ⟨hasg, hreq⟩ := request_transport_success_stamps cfg draws st.all_staff
      st.pulley_in_use { p with transport_request_time := some t } t
      (if et = "ADMIT_TO_INPATIENT" then "INPATIENT" else "CDU") hres
    obtain ⟨res, hr⟩ := Option.ne_none_iff_exists'.mp hres
    unfold process_admit_event
    rw [if_neg (not_not_intro hbed)]
    dsimp only
    rw [hr]
    dsimp only
    set target := (if et = "ADMIT_TO_INPATIENT" then "INPATIENT" else "CDU") with htarget
    split_ifs with hd
    · exact ⟨by simp [HospUnit.discharge_patient, hd.2, Patient.add_event, hreq],
             by simp [HospUnit.discharge_patient, hd.2, Patient.add_event, hasg]⟩
    · exact ⟨by simpa using hreq, by simpa using hasg⟩
  · intro cfg sd et2 st2 q t2 dur t0 hnp hrq hag
    unfold process_transport_complete
    dsimp only [Patient.add_event]
    rw [hrq, hag]
    have hcond : q.transport_type ≠ some "PULLEY" ∧ (some t0 : Option ℚ) ≠ none ∧
        (some t0 : Option ℚ) ≠ none :=
      ⟨hnp, fun hx => Option.noConfusion hx, fun hx => Option.noConfusion hx⟩
    rw [if_pos hcond]
    dsimp only [Option.getD]
    rw [sub_self]
    split_ifs <;>
      (simp [Metrics.add_ed_wait_time_for_transport, Metrics.add_transfer_time_to_admission,
        Metrics.add_transport_type_count, Metrics.add_ed_boarding_time,
        SimState.setUnit]
       try (split_ifs <;>
        simp [Metrics.add_ed_wait_time_for_transport, Metrics.add_transfer_time_to_admission,
          Metrics.add_ed_boarding_time, SimState.setUnit]))

/-- C10 witness: the theorem's two parts applied to the concrete
admission scenario (free inpatient bed, idle paid transporter, admit
event at 200; transport complete at 220). -/
theorem C10_admit_transport_wait_zero_witness :
    get_free_bed stC1
      (if ("ADMIT_TO_INPATIENT" : String) = "ADMIT_TO_INPATIENT"
        then "INPATIENT" else "CDU") = true ∧
    (request_transport_resource {} drawsC1 stC1.all_staff stC1.pulley_in_use
        { patC1 with transport_request_time := some 200 } 200
        (if ("ADMIT_TO_INPATIENT" : String) = "ADMIT_TO_INPATIENT"
          then "INPATIENT" else "CDU")).result ≠ none ∧
    ((process_admit_event {} drawsC1 "ADMIT_TO_INPATIENT" stC1 patC1
        200).2.1.transport_request_time = some 200 ∧
      (process_admit_event {} drawsC1 "ADMIT_TO_INPATIENT" stC1 patC1
        200).2.1.transport_assigned_time = some 200) ∧
    (process_transport_complete {} {} "STAFF_TRANSPORT_COMPLETE" stC1 wPatC10b 220
        (some 20)).1.metrics.ed_wait_times_for_transport =
      stC1.metrics.ed_wait_times_for_transport ++ [0] := by
  have hbed : get_free_bed stC1
      (if ("ADMIT_TO_INPATIENT" : String) = "ADMIT_TO_INPATIENT"
        then "INPATIENT" else "CDU") = true := by decide
  have hres : (request_transport_resource {} drawsC1 stC1.all_staff stC1.pulley_in_use
      { patC1 with transport_request_time := some 200 } 200
      (if ("ADMIT_TO_INPATIENT" : String) = "ADMIT_TO_INPATIENT"
        then "INPATIENT" else "CDU")).result ≠ none := by
    simp +decide [request_transport_resource, pulleyViable, available_paid_staff,
      available_volunteer_staff, is_volunteer_hours, firstMinBusy, minByBusy,
      Staff.assign, Staff.accrue_cost_for_completed_task, updateStaff, stC1,
      patC1, drawsC1, staffC1, Staff.is_free, costPerMinute]
  exact ⟨hbed, hres,
    C10_admit_transport_wait_zero.1 {} drawsC1 stC1 patC1 200 "ADMIT_TO_INPATIENT"
      hbed hres,
    C10_admit_transport_wait_zero.2 {} {} "STAFF_TRANSPORT_COMPLETE" stC1 wPatC10b
      220 (some 20) 200 (by decide) rfl rfl⟩

/-- C1: on the admission transport-complete path the handler does admit
the patient to the target unit, but — because the boarding-clear guard
requires `current_unit == 'ED'` after `current_unit` was already set to
the target — it neither records the ED boarding interval nor clears
`boarding_start_time`: in the concrete scenario a patient boarding since
100 is admitted to INPATIENT at 220 with `boarding_start_time` still set
and no boarding time recorded. -/
theorem C1_boarding_not_cleared_on_admission :
    admitStepC1.2.1.status = "IN_TRANSIT_TO_INPATIENT" ∧
    admitStepC1.2.1.current_unit = "INPATIENT" ∧
    admitStepC1.2.1.boarding_start_time = some 100 ∧
    "p1" ∈ (completeStepC1.1.units "INPATIENT").patients_in_unit ∧
    completeStepC1.2.1.status = "INPATIENT_STAY" ∧
    completeStepC1.2.1.boarding_start_time = some 100 ∧
    completeStepC1.1.metrics.ed_boarding_times = [] := by
  simp +decide [admitStepC1, completeStepC1, process_admit_event,
    process_transport_complete, request_transport_resource, pulleyViable,
    available_paid_staff, available_volunteer_staff, is_volunteer_hours,
    firstMinBusy, minByBusy, Staff.assign, Staff.accrue_cost_for_completed_task,
    updateStaff, get_free_bed, stC1, patC1, drawsC1, staffC1, unitsC1, edUnitC1,
    inpatientUnitC1, Staff.is_free, costPerMinute, HospUnit.admit_patient,
    HospUnit.discharge_patient, Patient.add_event, SimState.setUnit, pyTruthy,
    Metrics.add_transport_type_count, Metrics.add_transfer_time_to_admission,
    Metrics.add_ed_wait_time_for_transport, Metrics.add_ed_boarding_time]

end ZBrain
